import Mathlib

/-!
Shallow embedding of the voice-enabled CSV assistant web application
(`app.py`): the `CSVAnalyzer` class, the speech adapters, and the four
Flask request handlers.  External services (pandas parsing, the LangChain
agent, the OpenAI transcription and synthesis endpoints) are modelled as
oracle parameters whose outcome (`Except`-valued) stands for the external
call either returning a value or raising an exception.  Python truthiness
of strings and `str.startswith` are embedded at the code-point level
(`String.data`), matching Python string semantics.  Temporary-file usage
is made observable by a per-call counter of files left on disk, and the
number of external service calls performed is threaded through the
handlers so that call-count properties can be stated.
-/

namespace CsvApp

/-- Raw byte payloads (uploaded file contents, audio data, encoded audio). -/
abbrev Bytes := List Nat

/-- The loaded table (`pandas.DataFrame` as observed by the app): ordered
column names plus row data.  Downstream the app only reads `len(df)`,
`len(df.columns)` and `list(df.columns)`. -/
structure Table where
  columns : List String
  rows : List (List String)
deriving Repr, DecidableEq

/-- The external LangChain agent, opaque except for its binding to one table. -/
structure Agent where
  table : Table
deriving Repr, DecidableEq

/-- State of a `CSVAnalyzer` instance: its stored key, optional dataframe
and optional agent (`self.api_key`, `self.df`, `self.agent`). -/
structure Analyzer where
  api_key : Option String
  df : Option Table
  agent : Option Agent
deriving Repr, DecidableEq

/-- Python truthiness of a string: non-empty (code-point count positive). -/
def pyStrTruthy (s : String) : Bool := !s.data.isEmpty

/-- Python truthiness of an optional string (`None` and `""` are falsy). -/
def pyTruthy : Option String → Bool
  | none => false
  | some s => pyStrTruthy s

/-- Python `s.startswith(pre)`: the code points of `pre` are an initial
segment of those of `s`. -/
def pyStartsWith (s pre : String) : Bool := pre.data.isPrefixOf s.data

/-- Python `s.strip()`: drop whitespace code points from both ends. -/
def pyStrip (s : String) : String :=
  String.mk (((s.data.dropWhile Char.isWhitespace).reverse.dropWhile
    Char.isWhitespace).reverse)

/-- Python `s.lower()`: lower-case every code point. -/
def pyLower (s : String) : String := String.mk (s.data.map Char.toLower)

/-- Python `s.lower().endswith(suf)` as used for the extension check. -/
def pyLowerEndsWith (s suf : String) : Bool := suf.data.isSuffixOf (pyLower s).data

/-- `CSVAnalyzer.__init__(openai_api_key)`: stores the key and `None`
dataframe/agent, but raises `ValueError("OPENAI_API_KEY not provided")`
when the key is falsy; a raising constructor yields no object. -/
def mkAnalyzer (key : Option String) : Except String Analyzer :=
  if pyTruthy key then Except.ok ⟨key, none, none⟩
  else Except.error "OPENAI_API_KEY not provided"

/-- Outcome of `pd.read_csv` on the staged file: a parse error
(`pd.errors.ParserError`) or any other exception, both caught by the app. -/
inductive PdError
  | parserError (msg : String)
  | other (msg : String)
deriving Repr, DecidableEq

/-- Result of `CSVAnalyzer.load_data_from_file`: the analyzer after the
call, the returned boolean, and how many temporary files the call left on
disk when it returned. -/
structure LoadResult where
  analyzer : Analyzer
  ok : Bool
  leakedTempFiles : Nat
deriving Repr, DecidableEq

/-- `CSVAnalyzer.load_data_from_file`: stages the bytes into a fresh
temporary file, runs `pd.read_csv` on it (outcome `parseOutcome`), and on
success assigns `self.df`, unlinks the temporary file and returns `True`.
On `ParserError` or any other exception it returns `False`; the
`os.unlink` on the success path is skipped, so the temporary file stays
on disk. -/
def load_data_from_file (a : Analyzer) (parseOutcome : Except PdError Table) : LoadResult :=
  match parseOutcome with
  | Except.ok t => ⟨{ a with df := some t }, true, 0⟩
  | Except.error _ => ⟨a, false, 1⟩

/-- Result of `CSVAnalyzer.create_agent`: updated analyzer and returned boolean. -/
structure CreateAgentResult where
  analyzer : Analyzer
  ok : Bool
deriving Repr, DecidableEq

/-- `CSVAnalyzer.create_agent`: the two imports may raise `ImportError`
(`importsOk = false`); then `self.df is None` returns `False`; then
constructing `ChatOpenAI` and `create_pandas_dataframe_agent` (oracle
`construct`) either yields the agent assigned to `self.agent` with return
`True`, or raises, caught with return `False` and `self.agent` untouched. -/
def create_agent (a : Analyzer) (importsOk : Bool)
    (construct : Table → Except String Agent) : CreateAgentResult :=
  if !importsOk then ⟨a, false⟩
  else
    match a.df with
    | none => ⟨a, false⟩
    | some t =>
      match construct t with
      | Except.ok ag => ⟨{ a with agent := some ag }, true⟩
      | Except.error _ => ⟨a, false⟩

/-- The value returned by `self.agent.invoke({"input": question})`: either a
mapping (with an optional `"output"` entry and its `str()` rendering used
as fallback) or a non-mapping value rendered by `str()`. -/
inductive AgentResponse
  | dict (output : Option String) (strRepr : String)
  | nonDict (strRepr : String)
deriving Repr, DecidableEq

/-- `response.get("output", str(response)) if isinstance(response, dict) else str(response)`. -/
def answerOf : AgentResponse → String
  | AgentResponse.dict (some out) _ => out
  | AgentResponse.dict none r => r
  | AgentResponse.nonDict r => r

/-- The dictionary returned by `CSVAnalyzer.query`. -/
structure QueryResult where
  success : Bool
  error : Option String
  answer : Option String
  question : String
deriving Repr, DecidableEq

/-- `CSVAnalyzer.query`: with no agent bound, returns the
`"Agent not initialized"` result without any external call; otherwise
forwards the question to `agent.invoke` (oracle `invoke`), shaping the
answer on success and catching any exception into an error result. -/
def CSVAnalyzer.query (a : Analyzer) (invoke : String → Except String AgentResponse)
    (question : String) : QueryResult :=
  match a.agent with
  | none => ⟨false, some "Agent not initialized", none, question⟩
  | some _ =>
    match invoke question with
    | Except.ok resp => ⟨true, none, some (answerOf resp), question⟩
    | Except.error e => ⟨false, some e, none, question⟩

/-- Outcome of the external transcription call
(`client.audio.transcriptions.create`), including the file staging around it. -/
inductive SttOutcome
  | ok (text : String)
  | openaiError (msg : String)
  | otherError (msg : String)
deriving Repr, DecidableEq

/-- Result of `VoiceCSVWebApp.speech_to_text`: returned string, temporary
files left behind, and whether the external service was contacted. -/
structure SttResult where
  text : String
  leakedTempFiles : Nat
  calls : Nat
deriving Repr, DecidableEq

/-- `VoiceCSVWebApp.speech_to_text`: without a client returns the sentinel
`"OpenAI API key not configured"` and contacts nothing.  Otherwise audio
is staged into a temporary file and sent to the service; on success the
file is unlinked and the transcript returned, while on `OpenAIError` or
any other exception a sentinel string is returned and the unlink on the
success path is skipped, leaving the temporary file on disk. -/
def speech_to_text (clientConfigured : Bool) (callOutcome : SttOutcome) : SttResult :=
  if !clientConfigured then ⟨"OpenAI API key not configured", 0, 0⟩
  else
    match callOutcome with
    | SttOutcome.ok t => ⟨t, 0, 1⟩
    | SttOutcome.openaiError m => ⟨"Speech-to-text error: " ++ m, 1, 1⟩
    | SttOutcome.otherError m => ⟨"Error: " ++ m, 1, 1⟩

/-- `VoiceCSVWebApp.text_to_speech`: without a client returns `b""`;
otherwise submits the text to the synthesis endpoint (oracle
`callOutcome`), returning its bytes on success and `b""` on
`OpenAIError` or any other exception. -/
def text_to_speech (clientConfigured : Bool) (callOutcome : String → Except String Bytes)
    (text : String) : Bytes :=
  if !clientConfigured then []
  else
    match callOutcome text with
    | Except.ok bs => bs
    | Except.error _ => []

/-- One character of the standard base64 alphabet. -/
def b64char (n : Nat) : Char :=
  if n < 26 then Char.ofNat (65 + n)
  else if n < 52 then Char.ofNat (97 + (n - 26))
  else if n < 62 then Char.ofNat (48 + (n - 52))
  else if n = 62 then '+'
  else '/'

/-- Standard base64 encoding of a byte list (`base64.b64encode`). -/
def b64encodeChars : List Nat → List Char
  | [] => []
  | [a] =>
    let a := a % 256
    [b64char (a / 4), b64char ((a % 4) * 16), '=', '=']
  | [a, b] =>
    let a := a % 256
    let b := b % 256
    [b64char (a / 4), b64char ((a % 4) * 16 + b / 16), b64char ((b % 16) * 4), '=']
  | a :: b :: c :: rest =>
    let x := a % 256
    let y := b % 256
    let z := c % 256
    b64char (x / 4) :: b64char ((x % 4) * 16 + y / 16) ::
      b64char ((y % 16) * 4 + z / 64) :: b64char (z % 64) :: b64encodeChars rest

/-- `base64.b64encode(bs).decode()`. -/
def b64encode (bs : Bytes) : String := String.mk (b64encodeChars bs)

/-- Process-wide state of `VoiceCSVWebApp`: the key read from the
environment at startup and the current analyzer (`self.analyzer`,
initially `None`).  The OpenAI client exists exactly when the key is
truthy. -/
structure WebAppState where
  api_key : Option String
  analyzer : Option Analyzer
deriving Repr, DecidableEq

/-- `self.client = OpenAI(...) if self.api_key else None`. -/
def clientConfigured (s : WebAppState) : Bool := pyTruthy s.api_key

/-- The parts of an `/upload_csv` request the handler inspects. -/
structure UploadRequest where
  hasFilePart : Bool
  filename : String
  content : Bytes
deriving Repr, DecidableEq

/-- The `info` object of a successful upload response. -/
structure DataInfo where
  rows : Nat
  columns : Nat
  column_names : List String
deriving Repr, DecidableEq

/-- JSON envelope returned by `/upload_csv`. -/
structure UploadResponse where
  success : Bool
  error : Option String
  message : Option String
  info : Option DataInfo
deriving Repr, DecidableEq

/-- `jsonify({'success': False, 'error': e})`. -/
def uploadFailure (e : String) : UploadResponse := ⟨false, some e, none, none⟩

/-- Result of the `/upload_csv` handler: new process state and response. -/
structure UploadOut where
  state : WebAppState
  resp : UploadResponse
deriving Repr, DecidableEq

/-- The `/upload_csv` handler: file-part, filename and extension checks;
then `self.analyzer = CSVAnalyzer(self.api_key)` (whose `ValueError` is
caught by the handler's `except`, leaving `self.analyzer` unchanged since
the assignment never completes); then `load_data_from_file` and
`create_agent`, each failure reported after the fresh analyzer has
already replaced the previous one; on success the dataset info is read
off `self.analyzer.df`. -/
def upload_csv (s : WebAppState) (req : UploadRequest)
    (parseCsv : Bytes → Except PdError Table)
    (importsOk : Bool)
    (construct : Table → Except String Agent) : UploadOut :=
  if !req.hasFilePart then ⟨s, uploadFailure "No file uploaded"⟩
  else if !pyStrTruthy req.filename then ⟨s, uploadFailure "No file selected"⟩
  else if !pyLowerEndsWith req.filename ".csv" then
    ⟨s, uploadFailure "Only CSV files are allowed"⟩
  else
    match mkAnalyzer s.api_key with
    | Except.error e => ⟨s, uploadFailure e⟩
    | Except.ok a0 =>
      let lr := load_data_from_file a0 (parseCsv req.content)
      match parseCsv req.content with
      | Except.error _ =>
        ⟨{ s with analyzer := some lr.analyzer }, uploadFailure "Failed to load CSV file"⟩
      | Except.ok _ =>
        let cr := create_agent lr.analyzer importsOk construct
        if !cr.ok then
          ⟨{ s with analyzer := some cr.analyzer },
            uploadFailure "Failed to create analysis agent"⟩
        else
          match cr.analyzer.df with
          | none =>
            ⟨{ s with analyzer := some cr.analyzer }, uploadFailure "Failed to load CSV file"⟩
          | some t =>
            let info : DataInfo := ⟨t.rows.length, t.columns.length, t.columns⟩
            ⟨{ s with analyzer := some cr.analyzer },
              ⟨true, none,
                some ("CSV loaded successfully! " ++ toString info.rows ++ " rows, " ++
                  toString info.columns ++ " columns"),
                some info⟩⟩

/-- JSON envelope returned by the two query handlers. -/
structure QueryResponse where
  success : Bool
  question : Option String
  answer : Option String
  audio : Option String
  error : Option String
deriving Repr, DecidableEq

/-- How many times each external service was contacted while handling a request. -/
structure CallCounts where
  transcriptions : Nat
  invocations : Nat
  syntheses : Nat
deriving Repr, DecidableEq

/-- No external service contacted. -/
def noCalls : CallCounts := ⟨0, 0, 0⟩

/-- Result of the `/voice_query` handler: state after the request (the
handler never reassigns `self.analyzer`), response, service call counts,
and temporary files left behind. -/
structure VoiceOut where
  state : WebAppState
  resp : QueryResponse
  calls : CallCounts
  leakedTempFiles : Nat
deriving Repr, DecidableEq

/-- The `/voice_query` handler: rejects when `self.analyzer` is `None`
(before reading the audio), transcribes, short-circuits on the falsy /
`startswith('Error')` sentinel check, otherwise forwards the transcript
as the question to `CSVAnalyzer.query` and, on success, synthesizes the
answer and base64-encodes non-empty audio. -/
def voice_query (s : WebAppState) (audioData : Bytes)
    (sttOutcome : Bytes → SttOutcome)
    (invoke : String → Except String AgentResponse)
    (tts : String → Except String Bytes) : VoiceOut :=
  match s.analyzer with
  | none =>
    ⟨s, ⟨false, none, none, none, some "No CSV file loaded. Please upload a CSV first."⟩,
      noCalls, 0⟩
  | some a =>
    let st := speech_to_text (clientConfigured s) (sttOutcome audioData)
    let question := st.text
    if !pyStrTruthy question || pyStartsWith question "Error" then
      ⟨s, ⟨false, none, none, none, some ("Speech recognition failed: " ++ question)⟩,
        ⟨st.calls, 0, 0⟩, st.leakedTempFiles⟩
    else
      let result := CSVAnalyzer.query a invoke question
      let invCalls := if a.agent.isSome then 1 else 0
      if result.success then
        let audioResponse := text_to_speech (clientConfigured s) tts (result.answer.getD "")
        let synthCalls := if clientConfigured s then 1 else 0
        let audio_b64 := if !audioResponse.isEmpty then b64encode audioResponse else ""
        ⟨s, ⟨true, some question, result.answer, some audio_b64, none⟩,
          ⟨st.calls, invCalls, synthCalls⟩, st.leakedTempFiles⟩
      else
        ⟨s, ⟨false, some question, none, none, result.error⟩,
          ⟨st.calls, invCalls, 0⟩, st.leakedTempFiles⟩

/-- Result of the `/text_query` handler. -/
structure TextOut where
  state : WebAppState
  resp : QueryResponse
  calls : CallCounts
deriving Repr, DecidableEq

/-- The `/text_query` handler: rejects when `self.analyzer` is `None`,
reads `data.get('question', '').strip()`, rejects a falsy question,
otherwise runs `CSVAnalyzer.query` and on success synthesizes the answer
and base64-encodes non-empty audio. -/
def text_query (s : WebAppState) (questionField : Option String)
    (invoke : String → Except String AgentResponse)
    (tts : String → Except String Bytes) : TextOut :=
  match s.analyzer with
  | none =>
    ⟨s, ⟨false, none, none, none, some "No CSV file loaded. Please upload a CSV first."⟩,
      noCalls⟩
  | some a =>
    let question := pyStrip (questionField.getD "")
    if !pyStrTruthy question then
      ⟨s, ⟨false, none, none, none, some "No question provided"⟩, noCalls⟩
    else
      let result := CSVAnalyzer.query a invoke question
      let invCalls := if a.agent.isSome then 1 else 0
      if result.success then
        let audioResponse := text_to_speech (clientConfigured s) tts (result.answer.getD "")
        let synthCalls := if clientConfigured s then 1 else 0
        let audio_b64 := if !audioResponse.isEmpty then b64encode audioResponse else ""
        ⟨s, ⟨true, some question, result.answer, some audio_b64, none⟩,
          ⟨0, invCalls, synthCalls⟩⟩
      else
        ⟨s, ⟨false, some question, none, none, result.error⟩, ⟨0, invCalls, 0⟩⟩

/-- The spec's session invariant: an agent is bound only when a table is loaded. -/
def AnalyzerInv (a : Analyzer) : Prop := a.agent.isSome = true → a.df.isSome = true

/-! ## Helper lemmas shared by several verification results -/

/-- `/text_query` never reassigns `self.analyzer`: the process state after
the handler equals the state before it. -/
theorem text_query_state_eq (s : WebAppState) (qf : Option String)
    (invoke : String → Except String AgentResponse) (tts : String → Except String Bytes) :
    (text_query s qf invoke tts).state = s := by
  unfold text_query
  cases s.analyzer with
  | none => rfl
  | some a =>
    dsimp only
    split
    · rfl
    · split <;> rfl

/-- `/voice_query` never reassigns `self.analyzer`. -/
theorem voice_query_state_eq (s : WebAppState) (audioData : Bytes)
    (sttOutcome : Bytes → SttOutcome)
    (invoke : String → Except String AgentResponse) (tts : String → Except String Bytes) :
    (voice_query s audioData sttOutcome invoke tts).state = s := by
  unfold voice_query
  cases s.analyzer with
  | none => rfl
  | some a =>
    dsimp only
    split
    · rfl
    · split <;> rfl

/-- A failed `create_agent` leaves the analyzer untouched. -/
theorem create_agent_fail_eq (a : Analyzer) (importsOk : Bool)
    (construct : Table → Except String Agent)
    (h : (create_agent a importsOk construct).ok = false) :
    (create_agent a importsOk construct).analyzer = a := by
  unfold create_agent at *
  cases importsOk with
  | false => rfl
  | true =>
    cases hdf : a.df with
    | none => simp [hdf]
    | some t =>
      cases hc : construct t with
      | ok ag => simp [hdf, hc] at h
      | error e => simp [hdf, hc]

/-- With the three request checks passing but a falsy key, the analyzer
constructor raises and `/upload_csv` reports its message, state unchanged. -/
theorem upload_csv_no_key (s : WebAppState) (req : UploadRequest)
    (parseCsv : Bytes → Except PdError Table) (importsOk : Bool)
    (construct : Table → Except String Agent)
    (h1 : req.hasFilePart = true) (h2 : pyStrTruthy req.filename = true)
    (h3 : pyLowerEndsWith req.filename ".csv" = true)
    (hk : pyTruthy s.api_key = false) :
    upload_csv s req parseCsv importsOk construct =
      ⟨s, uploadFailure "OPENAI_API_KEY not provided"⟩ := by
  unfold upload_csv mkAnalyzer
  rw [h1, h2, h3, hk]
  rfl

/-- With the checks passing, a truthy key and a failing parse, `/upload_csv`
replaces the session with the fresh table-less, agent-less analyzer. -/
theorem upload_csv_parse_failed (s : WebAppState) (req : UploadRequest)
    (parseCsv : Bytes → Except PdError Table) (importsOk : Bool)
    (construct : Table → Except String Agent) (e : PdError)
    (h1 : req.hasFilePart = true) (h2 : pyStrTruthy req.filename = true)
    (h3 : pyLowerEndsWith req.filename ".csv" = true)
    (hk : pyTruthy s.api_key = true)
    (hp : parseCsv req.content = Except.error e) :
    upload_csv s req parseCsv importsOk construct =
      ⟨{ s with analyzer := some ⟨s.api_key, none, none⟩ },
        uploadFailure "Failed to load CSV file"⟩ := by
  unfold upload_csv mkAnalyzer
  rw [h1, h2, h3, hk, hp]
  rfl

/-- With the checks passing, a truthy key and a successful parse, but
agent construction failing, `/upload_csv` replaces the session with the
analyzer holding the new table and no agent. -/
theorem upload_csv_agent_failed (s : WebAppState) (req : UploadRequest)
    (parseCsv : Bytes → Except PdError Table) (importsOk : Bool)
    (construct : Table → Except String Agent) (t : Table)
    (h1 : req.hasFilePart = true) (h2 : pyStrTruthy req.filename = true)
    (h3 : pyLowerEndsWith req.filename ".csv" = true)
    (hk : pyTruthy s.api_key = true)
    (hp : parseCsv req.content = Except.ok t)
    (hfail : (create_agent ⟨s.api_key, some t, none⟩ importsOk construct).ok = false) :
    upload_csv s req parseCsv importsOk construct =
      ⟨{ s with analyzer := some ⟨s.api_key, some t, none⟩ },
        uploadFailure "Failed to create analysis agent"⟩ := by
  have heq := create_agent_fail_eq ⟨s.api_key, some t, none⟩ importsOk construct hfail
  simp only [upload_csv, mkAnalyzer, load_data_from_file, h1, h2, h3, hk, hp, hfail, heq,
    Bool.not_true, Bool.not_false, if_true, if_false, ite_true, ite_false, Bool.false_eq_true,
    reduceCtorEq, reduceIte]

/-- With the checks passing, a truthy key, a successful parse and a
successful agent construction, `/upload_csv` binds table and agent and
reports the dataset info. -/
theorem upload_csv_success_eq (s : WebAppState) (req : UploadRequest)
    (parseCsv : Bytes → Except PdError Table) (importsOk : Bool)
    (construct : Table → Except String Agent) (t : Table) (ag : Agent)
    (h1 : req.hasFilePart = true) (h2 : pyStrTruthy req.filename = true)
    (h3 : pyLowerEndsWith req.filename ".csv" = true)
    (hk : pyTruthy s.api_key = true)
    (hp : parseCsv req.content = Except.ok t)
    (hio : importsOk = true)
    (hc : construct t = Except.ok ag) :
    upload_csv s req parseCsv importsOk construct =
      ⟨{ s with analyzer := some ⟨s.api_key, some t, some ag⟩ },
        ⟨true, none,
          some ("CSV loaded successfully! " ++ toString t.rows.length ++ " rows, " ++
            toString t.columns.length ++ " columns"),
          some ⟨t.rows.length, t.columns.length, t.columns⟩⟩⟩ := by
  have hcr : create_agent ⟨s.api_key, some t, none⟩ true construct =
      ⟨⟨s.api_key, some t, some ag⟩, true⟩ := by
    simp only [create_agent, hc, Bool.not_true, if_false, ite_false, Bool.false_eq_true,
      reduceIte]
  simp only [upload_csv, mkAnalyzer, load_data_from_file, h1, h2, h3, hk, hp, hio, hcr,
    Bool.not_true, Bool.not_false, if_true, if_false, ite_true, ite_false, Bool.false_eq_true,
    reduceIte]

/-- On a session whose analyzer has no agent, a well-formed text query is
answered by `CSVAnalyzer.query`'s `"Agent not initialized"` result. -/
theorem text_query_agent_none (s : WebAppState) (a : Analyzer) (qf : Option String)
    (invoke : String → Except String AgentResponse) (tts : String → Except String Bytes)
    (ha : s.analyzer = some a) (hag : a.agent = none)
    (hq : pyStrTruthy (pyStrip (qf.getD "")) = true) :
    (text_query s qf invoke tts).resp =
      ⟨false, some (pyStrip (qf.getD "")), none, none, some "Agent not initialized"⟩ := by
  unfold text_query
  rw [ha]
  dsimp only
  rw [hq]
  unfold CSVAnalyzer.query
  rw [hag]
  rfl

/-- On a session whose analyzer has no agent, a voice query whose
transcription result passes the sentinel check is answered by
`CSVAnalyzer.query`'s `"Agent not initialized"` result. -/
theorem voice_query_agent_none (s : WebAppState) (a : Analyzer)
    (audioData : Bytes) (sttOutcome : Bytes → SttOutcome)
    (invoke : String → Except String AgentResponse) (tts : String → Except String Bytes)
    (ha : s.analyzer = some a) (hag : a.agent = none)
    (ht : pyStrTruthy (speech_to_text (clientConfigured s) (sttOutcome audioData)).text = true)
    (hs : pyStartsWith (speech_to_text (clientConfigured s) (sttOutcome audioData)).text
      "Error" = false) :
    (voice_query s audioData sttOutcome invoke tts).resp =
      ⟨false, some (speech_to_text (clientConfigured s) (sttOutcome audioData)).text,
        none, none, some "Agent not initialized"⟩ := by
  unfold voice_query
  rw [ha]
  dsimp only
  rw [ht, hs]
  rw [if_neg (by simp)]
  unfold CSVAnalyzer.query
  rw [hag]
  rfl

/-- Shape facts about `CSVAnalyzer.query` results: the question is echoed
back, a successful result has no error, a failed result has no answer. -/
theorem query_result_shape (a : Analyzer) (invoke : String → Except String AgentResponse)
    (q : String) :
    (CSVAnalyzer.query a invoke q).question = q ∧
    ((CSVAnalyzer.query a invoke q).success = true →
      (CSVAnalyzer.query a invoke q).error = none) ∧
    ((CSVAnalyzer.query a invoke q).success = false →
      (CSVAnalyzer.query a invoke q).answer = none) := by
  unfold CSVAnalyzer.query
  cases a.agent with
  | none => simp
  | some ag =>
    cases invoke q with
    | ok r => simp
    | error e => simp

/-- On a loaded session, when the transcription result is falsy or starts
with `Error`, `/voice_query` short-circuits into a recognition failure
without contacting the agent or the synthesis service. -/
theorem voice_query_recognition_failed (s : WebAppState) (a : Analyzer)
    (audioData : Bytes) (sttOutcome : Bytes → SttOutcome)
    (invoke : String → Except String AgentResponse) (tts : String → Except String Bytes)
    (ha : s.analyzer = some a)
    (hsent : (!pyStrTruthy (speech_to_text (clientConfigured s) (sttOutcome audioData)).text ||
      pyStartsWith (speech_to_text (clientConfigured s) (sttOutcome audioData)).text "Error") =
      true) :
    voice_query s audioData sttOutcome invoke tts =
      ⟨s, ⟨false, none, none, none,
          some ("Speech recognition failed: " ++
            (speech_to_text (clientConfigured s) (sttOutcome audioData)).text)⟩,
        ⟨(speech_to_text (clientConfigured s) (sttOutcome audioData)).calls, 0, 0⟩,
        (speech_to_text (clientConfigured s) (sttOutcome audioData)).leakedTempFiles⟩ := by
  unfold voice_query
  rw [ha]
  dsimp only
  rw [hsent]
  rfl

/-- On a loaded session, when the transcription result passes the sentinel
check, `/voice_query` forwards it verbatim to `CSVAnalyzer.query` as the
question; the response components agree with that query result and the
bound agent is invoked exactly once. -/
theorem voice_query_forwards_transcript (s : WebAppState) (a : Analyzer) (ag : Agent)
    (audioData : Bytes) (sttOutcome : Bytes → SttOutcome)
    (invoke : String → Except String AgentResponse) (tts : String → Except String Bytes)
    (ha : s.analyzer = some a) (hag : a.agent = some ag)
    (ht : pyStrTruthy (speech_to_text (clientConfigured s) (sttOutcome audioData)).text = true)
    (hs : pyStartsWith (speech_to_text (clientConfigured s) (sttOutcome audioData)).text
      "Error" = false) :
    (voice_query s audioData sttOutcome invoke tts).resp.question =
      some (speech_to_text (clientConfigured s) (sttOutcome audioData)).text ∧
    (voice_query s audioData sttOutcome invoke tts).resp.success =
      (CSVAnalyzer.query a invoke
        (speech_to_text (clientConfigured s) (sttOutcome audioData)).text).success ∧
    (voice_query s audioData sttOutcome invoke tts).resp.answer =
      (CSVAnalyzer.query a invoke
        (speech_to_text (clientConfigured s) (sttOutcome audioData)).text).answer ∧
    (voice_query s audioData sttOutcome invoke tts).resp.error =
      (CSVAnalyzer.query a invoke
        (speech_to_text (clientConfigured s) (sttOutcome audioData)).text).error ∧
    (voice_query s audioData sttOutcome invoke tts).calls.invocations = 1 ∧
    (voice_query s audioData sttOutcome invoke tts).calls.transcriptions =
      (speech_to_text (clientConfigured s) (sttOutcome audioData)).calls := by
  unfold voice_query
  rw [ha]
  dsimp only
  rw [ht, hs]
  rw [if_neg (by simp)]
  cases hsucc : (CSVAnalyzer.query a invoke
      (speech_to_text (clientConfigured s) (sttOutcome audioData)).text).success with
  | true =>
    have herr := (query_result_shape a invoke
      (speech_to_text (clientConfigured s) (sttOutcome audioData)).text).2.1 hsucc
    simp [hsucc, hag, herr]
  | false =>
    have hans := (query_result_shape a invoke
      (speech_to_text (clientConfigured s) (sttOutcome audioData)).text).2.2 hsucc
    simp [hsucc, hag, hans]

/-- The string built for an `OpenAIError` during transcription is non-empty
and does not start with `Error`. -/
theorem stt_openai_sentinel_passes_check (m : String) :
    pyStrTruthy ("Speech-to-text error: " ++ m) = true ∧
    pyStartsWith ("Speech-to-text error: " ++ m) "Error" = false := by
  constructor
  · show (!(("Speech-to-text error: " ++ m).data.isEmpty)) = true
    rw [String.data_append]
    rfl
  · show ("Error".data.isPrefixOf ("Speech-to-text error: " ++ m).data) = false
    rw [String.data_append]
    rfl

/-- A missing file part fails the upload without touching the session. -/
theorem upload_csv_no_file (s : WebAppState) (req : UploadRequest)
    (parseCsv : Bytes → Except PdError Table) (importsOk : Bool)
    (construct : Table → Except String Agent)
    (h : req.hasFilePart = false) :
    upload_csv s req parseCsv importsOk construct = ⟨s, uploadFailure "No file uploaded"⟩ := by
  unfold upload_csv
  rw [h]
  rfl

/-- An empty filename fails the upload without touching the session. -/
theorem upload_csv_empty_filename (s : WebAppState) (req : UploadRequest)
    (parseCsv : Bytes → Except PdError Table) (importsOk : Bool)
    (construct : Table → Except String Agent)
    (h1 : req.hasFilePart = true) (h2 : pyStrTruthy req.filename = false) :
    upload_csv s req parseCsv importsOk construct = ⟨s, uploadFailure "No file selected"⟩ := by
  unfold upload_csv
  rw [h1, h2]
  rfl

/-- A filename without the `.csv` suffix fails the upload without touching
the session. -/
theorem upload_csv_bad_extension (s : WebAppState) (req : UploadRequest)
    (parseCsv : Bytes → Except PdError Table) (importsOk : Bool)
    (construct : Table → Except String Agent)
    (h1 : req.hasFilePart = true) (h2 : pyStrTruthy req.filename = true)
    (h3 : pyLowerEndsWith req.filename ".csv" = false) :
    upload_csv s req parseCsv importsOk construct =
      ⟨s, uploadFailure "Only CSV files are allowed"⟩ := by
  unfold upload_csv
  rw [h1, h2, h3]
  rfl

/-- A successfully constructed analyzer satisfies the invariant. -/
theorem analyzerInv_mk (k : Option String) (a : Analyzer)
    (h : mkAnalyzer k = Except.ok a) : AnalyzerInv a := by
  unfold mkAnalyzer at h
  split at h
  · cases h
    intro hag
    simp at hag
  · cases h

/-- `load_data_from_file` preserves the invariant. -/
theorem analyzerInv_load (a : Analyzer) (pr : Except PdError Table)
    (h : AnalyzerInv a) : AnalyzerInv (load_data_from_file a pr).analyzer := by
  cases pr with
  | ok t => intro _; simp [load_data_from_file]
  | error e => exact h

/-- `create_agent` preserves the invariant: it only binds an agent after
checking that a table is loaded. -/
theorem analyzerInv_create (a : Analyzer) (importsOk : Bool)
    (construct : Table → Except String Agent)
    (h : AnalyzerInv a) : AnalyzerInv (create_agent a importsOk construct).analyzer := by
  unfold create_agent
  cases importsOk with
  | false => exact h
  | true =>
    cases hdf : a.df with
    | none => simpa [hdf] using h
    | some t =>
      cases hc : construct t with
      | ok ag =>
        intro _
        simp [hdf, hc]
      | error e => simpa [hdf, hc] using h

/-- `/upload_csv` preserves the invariant on the (optional) session analyzer. -/
theorem analyzerInv_upload (s : WebAppState) (req : UploadRequest)
    (parseCsv : Bytes → Except PdError Table) (importsOk : Bool)
    (construct : Table → Except String Agent)
    (hs : ∀ b, s.analyzer = some b → AnalyzerInv b) :
    ∀ b, (upload_csv s req parseCsv importsOk construct).state.analyzer = some b →
      AnalyzerInv b := by
  intro b hb
  cases h1 : req.hasFilePart with
  | false =>
    rw [upload_csv_no_file s req parseCsv importsOk construct h1] at hb
    exact hs b hb
  | true =>
  cases h2 : pyStrTruthy req.filename with
  | false =>
    rw [upload_csv_empty_filename s req parseCsv importsOk construct h1 h2] at hb
    exact hs b hb
  | true =>
  cases h3 : pyLowerEndsWith req.filename ".csv" with
  | false =>
    rw [upload_csv_bad_extension s req parseCsv importsOk construct h1 h2 h3] at hb
    exact hs b hb
  | true =>
  cases hk : pyTruthy s.api_key with
  | false =>
    rw [upload_csv_no_key s req parseCsv importsOk construct h1 h2 h3 hk] at hb
    exact hs b hb
  | true =>
  cases hp : parseCsv req.content with
  | error e =>
    rw [upload_csv_parse_failed s req parseCsv importsOk construct e h1 h2 h3 hk hp] at hb
    simp only [Option.some.injEq] at hb
    intro hag
    rw [← hb] at hag
    simp at hag
  | ok t =>
  cases hok : (create_agent ⟨s.api_key, some t, none⟩ importsOk construct).ok with
  | false =>
    rw [upload_csv_agent_failed s req parseCsv importsOk construct t h1 h2 h3 hk hp hok] at hb
    simp only [Option.some.injEq] at hb
    intro hag
    rw [← hb] at hag
    simp at hag
  | true =>
    cases importsOk with
    | false => simp [create_agent] at hok
    | true =>
      cases hc : construct t with
      | error e => simp [create_agent, hc] at hok
      | ok ag =>
        rw [upload_csv_success_eq s req parseCsv true construct t ag h1 h2 h3 hk hp rfl hc]
          at hb
        simp only [Option.some.injEq] at hb
        intro _
        rw [← hb]
        simp

/-! ## Claim theorems -/

/-- C2: the claim says the dataset loader and the transcription adapter
delete their staged temporary file on every exit path.  The code only
unlinks on the success path: on a parse failure (`ParserError` or any
other exception) and on a failed transcription call (`OpenAIError` or any
other exception) the temporary file stays on disk.  This theorem
evaluates the embedded functions at those failing inputs, showing one
leaked file on every exception path and none on the success paths. -/
theorem c2_tempfile_leaked_on_failure_paths :
    (load_data_from_file ⟨some "k", none, none⟩
      (Except.error (PdError.parserError "bad csv"))).leakedTempFiles = 1 ∧
    (load_data_from_file ⟨some "k", none, none⟩
      (Except.error (PdError.other "disk full"))).leakedTempFiles = 1 ∧
    (load_data_from_file ⟨some "k", none, none⟩
      (Except.ok ⟨["a"], [["1"]]⟩)).leakedTempFiles = 0 ∧
    (speech_to_text true (SttOutcome.openaiError "api down")).leakedTempFiles = 1 ∧
    (speech_to_text true (SttOutcome.otherError "io fault")).leakedTempFiles = 1 ∧
    (speech_to_text true (SttOutcome.ok "hello")).leakedTempFiles = 0 :=
  ⟨rfl, rfl, rfl, rfl, rfl, rfl⟩

/-- C4(counterexample): the claim scopes state `Empty` as "no upload has
ever succeeded".  Concretely: starting from the initial session (no
upload ever attempted) with a configured key, one upload that fails at
parse leaves `self.analyzer` a truthy agentless object even though no
upload has ever succeeded; a text query then returns
`"Agent not initialized"` instead of the claimed error, a voice query
performs a transcription call (not zero external calls), and a voice
query whose transcript passes the sentinel check even succeeds end to
end here, with the agent and synthesis services both contacted. -/
theorem c4_failed_upload_not_empty_counterexample :
    (let s0 : WebAppState := ⟨some "k", none⟩
    let up := upload_csv s0 ⟨true, "table.csv", [66]⟩
      (fun _ => Except.error (PdError.parserError "bad header")) true
      (fun t => Except.ok ⟨t⟩)
    let tq := text_query up.state (some "what is the mean?")
      (fun _ => Except.ok (AgentResponse.nonDict "mean is 2")) (fun _ => Except.ok [9])
    let vq := voice_query up.state [3, 4] (fun _ => SttOutcome.ok "what is the mean?")
      (fun _ => Except.ok (AgentResponse.nonDict "mean is 2")) (fun _ => Except.ok [9])
    up.resp.success = false ∧
    up.state.analyzer ≠ none ∧
    tq.resp.error = some "Agent not initialized" ∧
    tq.resp.error ≠ some "No CSV file loaded. Please upload a CSV first." ∧
    vq.calls.transcriptions = 1 ∧
    vq.resp.error ≠ some "No CSV file loaded. Please upload a CSV first.") := by
  decide

/-- C4(amended): on a session whose analyzer is `None` (the code's
`if not self.analyzer` guard: no upload attempt has ever got past the
analyzer construction step — a strictly smaller set of states than "no
upload has ever succeeded"), any text or voice query is answered
`success:false` with error exactly
`"No CSV file loaded. Please upload a CSV first."`, with zero external
calls (no transcription, no agent invocation, no synthesis) and no
temporary file created, for every question, audio payload and oracle. -/
theorem c4_empty_session_rejects_queries (s : WebAppState) (h : s.analyzer = none)
    (qf : Option String) (audioData : Bytes) (sttOutcome : Bytes → SttOutcome)
    (invoke : String → Except String AgentResponse) (tts : String → Except String Bytes) :
    (text_query s qf invoke tts).resp =
      ⟨false, none, none, none, some "No CSV file loaded. Please upload a CSV first."⟩ ∧
    (text_query s qf invoke tts).calls = noCalls ∧
    (voice_query s audioData sttOutcome invoke tts).resp =
      ⟨false, none, none, none, some "No CSV file loaded. Please upload a CSV first."⟩ ∧
    (voice_query s audioData sttOutcome invoke tts).calls = noCalls ∧
    (voice_query s audioData sttOutcome invoke tts).leakedTempFiles = 0 := by
  unfold text_query voice_query
  rw [h]
  exact ⟨rfl, rfl, rfl, rfl, rfl⟩

/-- Witness for C4 at a concrete empty session, question, audio payload
and oracles. -/
theorem c4_empty_session_rejects_queries_witness :
    ((⟨some "k", none⟩ : WebAppState).analyzer = none) ∧
    ((text_query ⟨some "k", none⟩ (some "how many rows?")
        (fun _ => Except.ok (AgentResponse.nonDict "ans"))
        (fun _ => Except.ok [7])).resp =
      ⟨false, none, none, none, some "No CSV file loaded. Please upload a CSV first."⟩ ∧
    (text_query ⟨some "k", none⟩ (some "how many rows?")
        (fun _ => Except.ok (AgentResponse.nonDict "ans"))
        (fun _ => Except.ok [7])).calls = noCalls ∧
    (voice_query ⟨some "k", none⟩ [0, 1, 2] (fun _ => SttOutcome.ok "hi")
        (fun _ => Except.ok (AgentResponse.nonDict "ans"))
        (fun _ => Except.ok [7])).resp =
      ⟨false, none, none, none, some "No CSV file loaded. Please upload a CSV first."⟩ ∧
    (voice_query ⟨some "k", none⟩ [0, 1, 2] (fun _ => SttOutcome.ok "hi")
        (fun _ => Except.ok (AgentResponse.nonDict "ans"))
        (fun _ => Except.ok [7])).calls = noCalls ∧
    (voice_query ⟨some "k", none⟩ [0, 1, 2] (fun _ => SttOutcome.ok "hi")
        (fun _ => Except.ok (AgentResponse.nonDict "ans"))
        (fun _ => Except.ok [7])).leakedTempFiles = 0) :=
  ⟨rfl, c4_empty_session_rejects_queries ⟨some "k", none⟩ rfl (some "how many rows?")
    [0, 1, 2] (fun _ => SttOutcome.ok "hi")
    (fun _ => Except.ok (AgentResponse.nonDict "ans")) (fun _ => Except.ok [7])⟩

/-- C5: when the bound agent's invocation raises with message `m`,
`CSVAnalyzer.query` catches it and returns
`{success: false, error: m, answer: None, question: question}`, and the
session keeps its analyzer (the same table/agent binding) through both
query handlers. -/
theorem c5_agent_invocation_error_caught (s : WebAppState) (a : Analyzer) (ag : Agent)
    (q m : String) (invoke : String → Except String AgentResponse)
    (tts : String → Except String Bytes)
    (ha : s.analyzer = some a) (hag : a.agent = some ag)
    (hinv : invoke q = Except.error m) :
    CSVAnalyzer.query a invoke q = ⟨false, some m, none, q⟩ ∧
    (∀ qf : Option String, (text_query s qf invoke tts).state.analyzer = some a) ∧
    (∀ (audioData : Bytes) (sttOutcome : Bytes → SttOutcome),
      (voice_query s audioData sttOutcome invoke tts).state.analyzer = some a) := by
  refine ⟨?_, fun qf => by rw [text_query_state_eq]; exact ha,
    fun audioData sttOutcome => by rw [voice_query_state_eq]; exact ha⟩
  unfold CSVAnalyzer.query
  rw [hag, hinv]

/-- Witness for C5 at a concrete ready session and a raising invocation. -/
theorem c5_agent_invocation_error_caught_witness :
    ((⟨some "k", some ⟨some "k", some ⟨["a"], [["1"]]⟩, some ⟨⟨["a"], [["1"]]⟩⟩⟩⟩ :
        WebAppState).analyzer =
      some ⟨some "k", some ⟨["a"], [["1"]]⟩, some ⟨⟨["a"], [["1"]]⟩⟩⟩) ∧
    ((⟨some "k", some ⟨["a"], [["1"]]⟩, some ⟨⟨["a"], [["1"]]⟩⟩⟩ : Analyzer).agent =
      some ⟨⟨["a"], [["1"]]⟩⟩) ∧
    ((fun _ : String => (Except.error "rate limit" : Except String AgentResponse))
      "count rows" = Except.error "rate limit") ∧
    (CSVAnalyzer.query ⟨some "k", some ⟨["a"], [["1"]]⟩, some ⟨⟨["a"], [["1"]]⟩⟩⟩
        (fun _ => Except.error "rate limit") "count rows" =
      ⟨false, some "rate limit", none, "count rows"⟩ ∧
    (∀ qf : Option String,
      (text_query ⟨some "k", some ⟨some "k", some ⟨["a"], [["1"]]⟩, some ⟨⟨["a"], [["1"]]⟩⟩⟩⟩
          qf (fun _ => Except.error "rate limit") (fun _ => Except.ok [7])).state.analyzer =
        some ⟨some "k", some ⟨["a"], [["1"]]⟩, some ⟨⟨["a"], [["1"]]⟩⟩⟩) ∧
    (∀ (audioData : Bytes) (sttOutcome : Bytes → SttOutcome),
      (voice_query ⟨some "k", some ⟨some "k", some ⟨["a"], [["1"]]⟩, some ⟨⟨["a"], [["1"]]⟩⟩⟩⟩
          audioData sttOutcome (fun _ => Except.error "rate limit")
          (fun _ => Except.ok [7])).state.analyzer =
        some ⟨some "k", some ⟨["a"], [["1"]]⟩, some ⟨⟨["a"], [["1"]]⟩⟩⟩)) :=
  ⟨rfl, rfl, rfl,
    c5_agent_invocation_error_caught
      ⟨some "k", some ⟨some "k", some ⟨["a"], [["1"]]⟩, some ⟨⟨["a"], [["1"]]⟩⟩⟩⟩
      ⟨some "k", some ⟨["a"], [["1"]]⟩, some ⟨⟨["a"], [["1"]]⟩⟩⟩
      ⟨⟨["a"], [["1"]]⟩⟩ "count rows" "rate limit"
      (fun _ => Except.error "rate limit") (fun _ => Except.ok [7]) rfl rfl rfl⟩

/-- C6: `text_to_speech` returns empty bytes whenever no client is
configured or the external synthesis call raises, and a text query whose
agent invocation succeeded still returns `success:true` with the textual
answer and an empty string in the `audio` field when synthesis fails. -/
theorem c6_synthesis_failure_degrades_to_text (s : WebAppState) (a : Analyzer) (ag : Agent)
    (qf : Option String) (resp : AgentResponse)
    (invoke : String → Except String AgentResponse) (tts : String → Except String Bytes)
    (ha : s.analyzer = some a) (hag : a.agent = some ag)
    (hq : pyStrTruthy (pyStrip (qf.getD "")) = true)
    (hinv : invoke (pyStrip (qf.getD "")) = Except.ok resp)
    (hfail : clientConfigured s = false ∨ ∃ m, tts (answerOf resp) = Except.error m) :
    (∀ (txt : String) (tts2 : String → Except String Bytes),
      text_to_speech false tts2 txt = ([] : Bytes)) ∧
    (∀ (txt m2 : String) (tts2 : String → Except String Bytes),
      tts2 txt = Except.error m2 → text_to_speech true tts2 txt = ([] : Bytes)) ∧
    text_to_speech (clientConfigured s) tts (answerOf resp) = ([] : Bytes) ∧
    (text_query s qf invoke tts).resp =
      ⟨true, some (pyStrip (qf.getD "")), some (answerOf resp), some "", none⟩ := by
  have hempty : text_to_speech (clientConfigured s) tts (answerOf resp) = ([] : Bytes) := by
    cases hfail with
    | inl hc => rw [hc]; rfl
    | inr hm =>
      obtain ⟨m, hm⟩ := hm
      unfold text_to_speech
      rw [hm]
      cases clientConfigured s <;> rfl
  refine ⟨fun txt tts2 => rfl, fun txt m2 tts2 h => by unfold text_to_speech; rw [h]; rfl,
    hempty, ?_⟩
  unfold text_query
  rw [ha]
  dsimp only
  rw [hq]
  rw [if_neg (by simp)]
  unfold CSVAnalyzer.query
  rw [hag, hinv]
  dsimp only [Option.getD_some]
  rw [hempty]
  rfl

/-- Witness for C6 at a concrete ready session with a raising synthesis call. -/
theorem c6_synthesis_failure_degrades_to_text_witness :
    ((⟨some "k", some ⟨some "k", some ⟨["a"], [["1"]]⟩, some ⟨⟨["a"], [["1"]]⟩⟩⟩⟩ :
        WebAppState).analyzer =
      some ⟨some "k", some ⟨["a"], [["1"]]⟩, some ⟨⟨["a"], [["1"]]⟩⟩⟩) ∧
    (pyStrTruthy (pyStrip ((some "sum of a").getD "")) = true) ∧
    ((fun _ : String =>
        (Except.ok (AgentResponse.dict (some "42") "resp") : Except String AgentResponse))
      (pyStrip ((some "sum of a").getD "")) =
      Except.ok (AgentResponse.dict (some "42") "resp")) ∧
    ((fun _ : String => (Except.error "tts down" : Except String Bytes))
        (answerOf (AgentResponse.dict (some "42") "resp")) = Except.error "tts down") ∧
    ((∀ (txt : String) (tts2 : String → Except String Bytes),
      text_to_speech false tts2 txt = ([] : Bytes)) ∧
    (∀ (txt m2 : String) (tts2 : String → Except String Bytes),
      tts2 txt = Except.error m2 → text_to_speech true tts2 txt = ([] : Bytes)) ∧
    text_to_speech
      (clientConfigured ⟨some "k", some ⟨some "k", some ⟨["a"], [["1"]]⟩, some ⟨⟨["a"], [["1"]]⟩⟩⟩⟩)
      (fun _ => Except.error "tts down") (answerOf (AgentResponse.dict (some "42") "resp")) =
      ([] : Bytes) ∧
    (text_query ⟨some "k", some ⟨some "k", some ⟨["a"], [["1"]]⟩, some ⟨⟨["a"], [["1"]]⟩⟩⟩⟩
        (some "sum of a") (fun _ => Except.ok (AgentResponse.dict (some "42") "resp"))
        (fun _ => Except.error "tts down")).resp =
      ⟨true, some (pyStrip ((some "sum of a").getD "")),
        some (answerOf (AgentResponse.dict (some "42") "resp")), some "", none⟩) :=
  ⟨rfl, by decide, rfl, rfl,
    c6_synthesis_failure_degrades_to_text
      ⟨some "k", some ⟨some "k", some ⟨["a"], [["1"]]⟩, some ⟨⟨["a"], [["1"]]⟩⟩⟩⟩
      ⟨some "k", some ⟨["a"], [["1"]]⟩, some ⟨⟨["a"], [["1"]]⟩⟩⟩ ⟨⟨["a"], [["1"]]⟩⟩
      (some "sum of a") (AgentResponse.dict (some "42") "resp")
      (fun _ => Except.ok (AgentResponse.dict (some "42") "resp"))
      (fun _ => Except.error "tts down") rfl rfl (by decide) rfl
      (Or.inr ⟨"tts down", rfl⟩)⟩

/-- C7: on a loaded session with a bound agent, a voice query whose
transcription result is empty or starts with `Error` is rejected as a
recognition failure without invoking the agent or the synthesis service;
otherwise the transcript is forwarded verbatim to the agent as the
question. -/
theorem c7_voice_query_sentinel_check (s : WebAppState) (a : Analyzer) (ag : Agent)
    (audioData : Bytes) (sttOutcome : Bytes → SttOutcome)
    (invoke : String → Except String AgentResponse) (tts : String → Except String Bytes)
    (ha : s.analyzer = some a) (hag : a.agent = some ag) :
    ((!pyStrTruthy (speech_to_text (clientConfigured s) (sttOutcome audioData)).text ||
        pyStartsWith (speech_to_text (clientConfigured s) (sttOutcome audioData)).text
          "Error") = true →
      (voice_query s audioData sttOutcome invoke tts).resp =
        ⟨false, none, none, none,
          some ("Speech recognition failed: " ++
            (speech_to_text (clientConfigured s) (sttOutcome audioData)).text)⟩ ∧
      (voice_query s audioData sttOutcome invoke tts).calls.invocations = 0 ∧
      (voice_query s audioData sttOutcome invoke tts).calls.syntheses = 0) ∧
    (pyStrTruthy (speech_to_text (clientConfigured s) (sttOutcome audioData)).text = true →
      pyStartsWith (speech_to_text (clientConfigured s) (sttOutcome audioData)).text
        "Error" = false →
      (voice_query s audioData sttOutcome invoke tts).resp.question =
        some (speech_to_text (clientConfigured s) (sttOutcome audioData)).text ∧
      (voice_query s audioData sttOutcome invoke tts).resp.success =
        (CSVAnalyzer.query a invoke
          (speech_to_text (clientConfigured s) (sttOutcome audioData)).text).success ∧
      (voice_query s audioData sttOutcome invoke tts).resp.answer =
        (CSVAnalyzer.query a invoke
          (speech_to_text (clientConfigured s) (sttOutcome audioData)).text).answer ∧
      (voice_query s audioData sttOutcome invoke tts).calls.invocations = 1) := by
  constructor
  · intro hsent
    rw [voice_query_recognition_failed s a audioData sttOutcome invoke tts ha hsent]
    exact ⟨rfl, rfl, rfl⟩
  · intro ht hs2
    obtain ⟨hquest, hsucc, hans, herr, hinv1, htr⟩ :=
      voice_query_forwards_transcript s a ag audioData sttOutcome invoke tts ha hag ht hs2
    exact ⟨hquest, hsucc, hans, hinv1⟩

/-- Witness for C7 at a concrete ready session whose transcription yields
an `Error:`-prefixed sentinel (exercising the short-circuit branch). -/
theorem c7_voice_query_sentinel_check_witness :
    ((⟨some "k", some ⟨some "k", some ⟨["a"], [["1"]]⟩, some ⟨⟨["a"], [["1"]]⟩⟩⟩⟩ :
        WebAppState).analyzer =
      some ⟨some "k", some ⟨["a"], [["1"]]⟩, some ⟨⟨["a"], [["1"]]⟩⟩⟩) ∧
    (((!pyStrTruthy (speech_to_text
        (clientConfigured
          ⟨some "k", some ⟨some "k", some ⟨["a"], [["1"]]⟩, some ⟨⟨["a"], [["1"]]⟩⟩⟩⟩)
        ((fun _ => SttOutcome.otherError "mic broke") [0, 1])).text ||
        pyStartsWith (speech_to_text
          (clientConfigured
            ⟨some "k", some ⟨some "k", some ⟨["a"], [["1"]]⟩, some ⟨⟨["a"], [["1"]]⟩⟩⟩⟩)
          ((fun _ => SttOutcome.otherError "mic broke") [0, 1])).text "Error") = true →
      (voice_query ⟨some "k", some ⟨some "k", some ⟨["a"], [["1"]]⟩, some ⟨⟨["a"], [["1"]]⟩⟩⟩⟩
          [0, 1] (fun _ => SttOutcome.otherError "mic broke")
          (fun _ => Except.ok (AgentResponse.nonDict "ans")) (fun _ => Except.ok [7])).resp =
        ⟨false, none, none, none,
          some ("Speech recognition failed: " ++
            (speech_to_text
              (clientConfigured
                ⟨some "k", some ⟨some "k", some ⟨["a"], [["1"]]⟩, some ⟨⟨["a"], [["1"]]⟩⟩⟩⟩)
              ((fun _ => SttOutcome.otherError "mic broke") [0, 1])).text)⟩ ∧
      (voice_query ⟨some "k", some ⟨some "k", some ⟨["a"], [["1"]]⟩, some ⟨⟨["a"], [["1"]]⟩⟩⟩⟩
          [0, 1] (fun _ => SttOutcome.otherError "mic broke")
          (fun _ => Except.ok (AgentResponse.nonDict "ans"))
          (fun _ => Except.ok [7])).calls.invocations = 0 ∧
      (voice_query ⟨some "k", some ⟨some "k", some ⟨["a"], [["1"]]⟩, some ⟨⟨["a"], [["1"]]⟩⟩⟩⟩
          [0, 1] (fun _ => SttOutcome.otherError "mic broke")
          (fun _ => Except.ok (AgentResponse.nonDict "ans"))
          (fun _ => Except.ok [7])).calls.syntheses = 0) ∧
    (pyStrTruthy (speech_to_text
        (clientConfigured
          ⟨some "k", some ⟨some "k", some ⟨["a"], [["1"]]⟩, some ⟨⟨["a"], [["1"]]⟩⟩⟩⟩)
        ((fun _ => SttOutcome.otherError "mic broke") [0, 1])).text = true →
      pyStartsWith (speech_to_text
        (clientConfigured
          ⟨some "k", some ⟨some "k", some ⟨["a"], [["1"]]⟩, some ⟨⟨["a"], [["1"]]⟩⟩⟩⟩)
        ((fun _ => SttOutcome.otherError "mic broke") [0, 1])).text "Error" = false →
      (voice_query ⟨some "k", some ⟨some "k", some ⟨["a"], [["1"]]⟩, some ⟨⟨["a"], [["1"]]⟩⟩⟩⟩
          [0, 1] (fun _ => SttOutcome.otherError "mic broke")
          (fun _ => Except.ok (AgentResponse.nonDict "ans"))
          (fun _ => Except.ok [7])).resp.question =
        some (speech_to_text
          (clientConfigured
            ⟨some "k", some ⟨some "k", some ⟨["a"], [["1"]]⟩, some ⟨⟨["a"], [["1"]]⟩⟩⟩⟩)
          ((fun _ => SttOutcome.otherError "mic broke") [0, 1])).text ∧
      (voice_query ⟨some "k", some ⟨some "k", some ⟨["a"], [["1"]]⟩, some ⟨⟨["a"], [["1"]]⟩⟩⟩⟩
          [0, 1] (fun _ => SttOutcome.otherError "mic broke")
          (fun _ => Except.ok (AgentResponse.nonDict "ans"))
          (fun _ => Except.ok [7])).resp.success =
        (CSVAnalyzer.query ⟨some "k", some ⟨["a"], [["1"]]⟩, some ⟨⟨["a"], [["1"]]⟩⟩⟩
          (fun _ => Except.ok (AgentResponse.nonDict "ans"))
          (speech_to_text
            (clientConfigured
              ⟨some "k", some ⟨some "k", some ⟨["a"], [["1"]]⟩, some ⟨⟨["a"], [["1"]]⟩⟩⟩⟩)
            ((fun _ => SttOutcome.otherError "mic broke") [0, 1])).text).success ∧
      (voice_query ⟨some "k", some ⟨some "k", some ⟨["a"], [["1"]]⟩, some ⟨⟨["a"], [["1"]]⟩⟩⟩⟩
          [0, 1] (fun _ => SttOutcome.otherError "mic broke")
          (fun _ => Except.ok (AgentResponse.nonDict "ans"))
          (fun _ => Except.ok [7])).resp.answer =
        (CSVAnalyzer.query ⟨some "k", some ⟨["a"], [["1"]]⟩, some ⟨⟨["a"], [["1"]]⟩⟩⟩
          (fun _ => Except.ok (AgentResponse.nonDict "ans"))
          (speech_to_text
            (clientConfigured
              ⟨some "k", some ⟨some "k", some ⟨["a"], [["1"]]⟩, some ⟨⟨["a"], [["1"]]⟩⟩⟩⟩)
            ((fun _ => SttOutcome.otherError "mic broke") [0, 1])).text).answer ∧
      (voice_query ⟨some "k", some ⟨some "k", some ⟨["a"], [["1"]]⟩, some ⟨⟨["a"], [["1"]]⟩⟩⟩⟩
          [0, 1] (fun _ => SttOutcome.otherError "mic broke")
          (fun _ => Except.ok (AgentResponse.nonDict "ans"))
          (fun _ => Except.ok [7])).calls.invocations = 1)) :=
  ⟨rfl,
    c7_voice_query_sentinel_check
      ⟨some "k", some ⟨some "k", some ⟨["a"], [["1"]]⟩, some ⟨⟨["a"], [["1"]]⟩⟩⟩⟩
      ⟨some "k", some ⟨["a"], [["1"]]⟩, some ⟨⟨["a"], [["1"]]⟩⟩⟩ ⟨⟨["a"], [["1"]]⟩⟩
      [0, 1] (fun _ => SttOutcome.otherError "mic broke")
      (fun _ => Except.ok (AgentResponse.nonDict "ans")) (fun _ => Except.ok [7]) rfl rfl⟩

/-- C8: the invariant "the agent field is non-`None` only if the df field
is non-`None`" holds after construction and is preserved by
`load_data_from_file`, by `create_agent` and by the upload handler
(`CSVAnalyzer.query` performs no state update at all). -/
theorem c8_agent_only_with_table (k : Option String) (a a' : Analyzer)
    (pr : Except PdError Table) (importsOk : Bool)
    (construct : Table → Except String Agent)
    (s : WebAppState) (req : UploadRequest) (parseCsv : Bytes → Except PdError Table)
    (hmk : mkAnalyzer k = Except.ok a') (hInv : AnalyzerInv a)
    (hs : ∀ b, s.analyzer = some b → AnalyzerInv b) :
    AnalyzerInv a' ∧
    AnalyzerInv (load_data_from_file a pr).analyzer ∧
    AnalyzerInv (create_agent a importsOk construct).analyzer ∧
    (∀ b, (upload_csv s req parseCsv importsOk construct).state.analyzer = some b →
      AnalyzerInv b) :=
  ⟨analyzerInv_mk k a' hmk, analyzerInv_load a pr hInv,
    analyzerInv_create a importsOk construct hInv,
    analyzerInv_upload s req parseCsv importsOk construct hs⟩

/-- Witness for C8 at concrete analyzers, a concrete session and a
concrete upload request. -/
theorem c8_agent_only_with_table_witness :
    (mkAnalyzer (some "k") = Except.ok ⟨some "k", none, none⟩) ∧
    AnalyzerInv ⟨some "k", none, none⟩ ∧
    (∀ b, (⟨some "k", none⟩ : WebAppState).analyzer = some b → AnalyzerInv b) ∧
    (AnalyzerInv ⟨some "k", none, none⟩ ∧
    AnalyzerInv (load_data_from_file ⟨some "k", none, none⟩
      (Except.ok ⟨["a"], [["1"]]⟩)).analyzer ∧
    AnalyzerInv (create_agent ⟨some "k", none, none⟩ true
      (fun t => Except.ok ⟨t⟩)).analyzer ∧
    (∀ b, (upload_csv ⟨some "k", none⟩ ⟨true, "data.csv", [55]⟩
        (fun _ => Except.ok ⟨["a"], [["1"]]⟩) true
        (fun t => Except.ok ⟨t⟩)).state.analyzer = some b → AnalyzerInv b)) :=
  by
  refine ⟨rfl, ?_, ?_, ?_⟩
  · intro h
    exact Bool.noConfusion h
  · intro b hb
    exact Option.noConfusion hb
  · exact c8_agent_only_with_table (some "k") ⟨some "k", none, none⟩ ⟨some "k", none, none⟩
      (Except.ok ⟨["a"], [["1"]]⟩) true (fun t => Except.ok ⟨t⟩)
      ⟨some "k", none⟩ ⟨true, "data.csv", [55]⟩ (fun _ => Except.ok ⟨["a"], [["1"]]⟩)
      rfl (fun h => Bool.noConfusion h) (fun b hb => Option.noConfusion hb)

/-- C9: a fully successful upload (checks pass, key present, parse and
agent construction succeed) responds `success:true` with the message and
an `info` object whose `rows`, `columns` and `column_names` are exactly
the loaded table's row count, column count and ordered column names, and
binds that table and agent in the session. -/
theorem c9_upload_success_reports_info (s : WebAppState) (req : UploadRequest)
    (parseCsv : Bytes → Except PdError Table)
    (construct : Table → Except String Agent) (t : Table) (ag : Agent)
    (h1 : req.hasFilePart = true) (h2 : pyStrTruthy req.filename = true)
    (h3 : pyLowerEndsWith req.filename ".csv" = true)
    (hk : pyTruthy s.api_key = true)
    (hp : parseCsv req.content = Except.ok t)
    (hc : construct t = Except.ok ag) :
    (upload_csv s req parseCsv true construct).resp =
      ⟨true, none,
        some ("CSV loaded successfully! " ++ toString t.rows.length ++ " rows, " ++
          toString t.columns.length ++ " columns"),
        some ⟨t.rows.length, t.columns.length, t.columns⟩⟩ ∧
    (upload_csv s req parseCsv true construct).state.analyzer =
      some ⟨s.api_key, some t, some ag⟩ := by
  rw [upload_csv_success_eq s req parseCsv true construct t ag h1 h2 h3 hk hp rfl hc]
  exact ⟨rfl, rfl⟩

/-- Witness for C9 at a concrete request and 2x2 table. -/
theorem c9_upload_success_reports_info_witness :
    ((⟨true, "Data.CSV", [55]⟩ : UploadRequest).hasFilePart = true) ∧
    (pyStrTruthy (⟨true, "Data.CSV", [55]⟩ : UploadRequest).filename = true) ∧
    (pyLowerEndsWith (⟨true, "Data.CSV", [55]⟩ : UploadRequest).filename ".csv" = true) ∧
    (pyTruthy (⟨some "k", none⟩ : WebAppState).api_key = true) ∧
    ((upload_csv ⟨some "k", none⟩ ⟨true, "Data.CSV", [55]⟩
        (fun _ => Except.ok ⟨["a", "b"], [["1", "2"], ["3", "4"]]⟩) true
        (fun t => Except.ok ⟨t⟩)).resp =
      ⟨true, none,
        some ("CSV loaded successfully! " ++
          toString (⟨["a", "b"], [["1", "2"], ["3", "4"]]⟩ : Table).rows.length ++
          " rows, " ++
          toString (⟨["a", "b"], [["1", "2"], ["3", "4"]]⟩ : Table).columns.length ++
          " columns"),
        some ⟨(⟨["a", "b"], [["1", "2"], ["3", "4"]]⟩ : Table).rows.length,
          (⟨["a", "b"], [["1", "2"], ["3", "4"]]⟩ : Table).columns.length,
          (⟨["a", "b"], [["1", "2"], ["3", "4"]]⟩ : Table).columns⟩⟩ ∧
    (upload_csv ⟨some "k", none⟩ ⟨true, "Data.CSV", [55]⟩
        (fun _ => Except.ok ⟨["a", "b"], [["1", "2"], ["3", "4"]]⟩) true
        (fun t => Except.ok ⟨t⟩)).state.analyzer =
      some ⟨some "k", some ⟨["a", "b"], [["1", "2"], ["3", "4"]]⟩,
        some ⟨⟨["a", "b"], [["1", "2"], ["3", "4"]]⟩⟩⟩) :=
  ⟨rfl, by decide, by decide, by decide,
    c9_upload_success_reports_info ⟨some "k", none⟩ ⟨true, "Data.CSV", [55]⟩
      (fun _ => Except.ok ⟨["a", "b"], [["1", "2"], ["3", "4"]]⟩)
      (fun t => Except.ok ⟨t⟩) ⟨["a", "b"], [["1", "2"], ["3", "4"]]⟩
      ⟨⟨["a", "b"], [["1", "2"], ["3", "4"]]⟩⟩ rfl (by decide) (by decide) (by decide)
      rfl rfl⟩

/-- C10: when the transcription call raises `OpenAIError` with message
`m`, `speech_to_text` returns `"Speech-to-text error: " ++ m`, which is
non-empty and does not start with `Error`, so the voice handler does not
classify it as a recognition failure and forwards the sentinel string
verbatim to the agent as the question. -/
theorem c10_openai_error_sentinel_forwarded (s : WebAppState) (a : Analyzer) (ag : Agent)
    (audioData : Bytes) (m : String) (sttOutcome : Bytes → SttOutcome)
    (invoke : String → Except String AgentResponse) (tts : String → Except String Bytes)
    (ha : s.analyzer = some a) (hag : a.agent = some ag)
    (hclient : clientConfigured s = true)
    (hstt : sttOutcome audioData = SttOutcome.openaiError m) :
    (speech_to_text (clientConfigured s) (sttOutcome audioData)).text =
      "Speech-to-text error: " ++ m ∧
    pyStrTruthy ("Speech-to-text error: " ++ m) = true ∧
    pyStartsWith ("Speech-to-text error: " ++ m) "Error" = false ∧
    (voice_query s audioData sttOutcome invoke tts).resp.question =
      some ("Speech-to-text error: " ++ m) ∧
    (voice_query s audioData sttOutcome invoke tts).resp.success =
      (CSVAnalyzer.query a invoke ("Speech-to-text error: " ++ m)).success ∧
    (voice_query s audioData sttOutcome invoke tts).calls.invocations = 1 := by
  have htext : (speech_to_text (clientConfigured s) (sttOutcome audioData)).text =
      "Speech-to-text error: " ++ m := by
    rw [hclient, hstt]
    rfl
  have hsent := stt_openai_sentinel_passes_check m
  have hfwd := voice_query_forwards_transcript s a ag audioData sttOutcome invoke tts ha hag
    (by rw [htext]; exact hsent.1) (by rw [htext]; exact hsent.2)
  refine ⟨htext, hsent.1, hsent.2, ?_, ?_, hfwd.2.2.2.2.1⟩
  · rw [hfwd.1, htext]
  · rw [hfwd.2.1, htext]

/-- Witness for C10 at a concrete ready session and a concrete
`OpenAIError` message. -/
theorem c10_openai_error_sentinel_forwarded_witness :
    ((⟨some "k", some ⟨some "k", some ⟨["a"], [["1"]]⟩, some ⟨⟨["a"], [["1"]]⟩⟩⟩⟩ :
        WebAppState).analyzer =
      some ⟨some "k", some ⟨["a"], [["1"]]⟩, some ⟨⟨["a"], [["1"]]⟩⟩⟩) ∧
    (clientConfigured
      ⟨some "k", some ⟨some "k", some ⟨["a"], [["1"]]⟩, some ⟨⟨["a"], [["1"]]⟩⟩⟩⟩ = true) ∧
    ((fun _ : Bytes => SttOutcome.openaiError "quota exceeded") [0, 1] =
      SttOutcome.openaiError "quota exceeded") ∧
    ((speech_to_text
        (clientConfigured
          ⟨some "k", some ⟨some "k", some ⟨["a"], [["1"]]⟩, some ⟨⟨["a"], [["1"]]⟩⟩⟩⟩)
        ((fun _ : Bytes => SttOutcome.openaiError "quota exceeded") [0, 1])).text =
      "Speech-to-text error: " ++ "quota exceeded" ∧
    pyStrTruthy ("Speech-to-text error: " ++ "quota exceeded") = true ∧
    pyStartsWith ("Speech-to-text error: " ++ "quota exceeded") "Error" = false ∧
    (voice_query ⟨some "k", some ⟨some "k", some ⟨["a"], [["1"]]⟩, some ⟨⟨["a"], [["1"]]⟩⟩⟩⟩
        [0, 1] (fun _ => SttOutcome.openaiError "quota exceeded")
        (fun _ => Except.ok (AgentResponse.nonDict "ans"))
        (fun _ => Except.ok [7])).resp.question =
      some ("Speech-to-text error: " ++ "quota exceeded") ∧
    (voice_query ⟨some "k", some ⟨some "k", some ⟨["a"], [["1"]]⟩, some ⟨⟨["a"], [["1"]]⟩⟩⟩⟩
        [0, 1] (fun _ => SttOutcome.openaiError "quota exceeded")
        (fun _ => Except.ok (AgentResponse.nonDict "ans"))
        (fun _ => Except.ok [7])).resp.success =
      (CSVAnalyzer.query ⟨some "k", some ⟨["a"], [["1"]]⟩, some ⟨⟨["a"], [["1"]]⟩⟩⟩
        (fun _ => Except.ok (AgentResponse.nonDict "ans"))
        ("Speech-to-text error: " ++ "quota exceeded")).success ∧
    (voice_query ⟨some "k", some ⟨some "k", some ⟨["a"], [["1"]]⟩, some ⟨⟨["a"], [["1"]]⟩⟩⟩⟩
        [0, 1] (fun _ => SttOutcome.openaiError "quota exceeded")
        (fun _ => Except.ok (AgentResponse.nonDict "ans"))
        (fun _ => Except.ok [7])).calls.invocations = 1) :=
  ⟨rfl, rfl, rfl,
    c10_openai_error_sentinel_forwarded
      ⟨some "k", some ⟨some "k", some ⟨["a"], [["1"]]⟩, some ⟨⟨["a"], [["1"]]⟩⟩⟩⟩
      ⟨some "k", some ⟨["a"], [["1"]]⟩, some ⟨⟨["a"], [["1"]]⟩⟩⟩ ⟨⟨["a"], [["1"]]⟩⟩
      [0, 1] "quota exceeded" (fun _ => SttOutcome.openaiError "quota exceeded")
      (fun _ => Except.ok (AgentResponse.nonDict "ans")) (fun _ => Except.ok [7])
      rfl rfl rfl rfl⟩

/-- C1(counterexample): the claim says a failed re-upload leaves the
session in state `Empty`, so subsequent queries return the
`"No CSV file loaded. Please upload a CSV first."` error.  Concretely:
starting from a ready session, an upload whose parse fails replaces
`self.analyzer` with a fresh truthy `CSVAnalyzer` object, so a subsequent
text query passes the `if not self.analyzer` guard and instead returns
`"Agent not initialized"`. -/
theorem c1_failed_upload_counterexample :
    (let s0 : WebAppState :=
      ⟨some "k", some ⟨some "k", some ⟨["a"], [["1"]]⟩, some ⟨⟨["a"], [["1"]]⟩⟩⟩⟩
    let up := upload_csv s0 ⟨true, "data.csv", [55]⟩
      (fun _ => Except.error (PdError.parserError "bad line")) true
      (fun t => Except.ok ⟨t⟩)
    let tq := text_query up.state (some "how many rows?")
      (fun _ => Except.ok (AgentResponse.nonDict "ans")) (fun _ => Except.ok [7])
    up.resp.success = false ∧
    up.state.analyzer ≠ none ∧
    tq.resp.success = false ∧
    tq.resp.error = some "Agent not initialized" ∧
    tq.resp.error ≠ some "No CSV file loaded. Please upload a CSV first.") := by
  decide

/-- C1(amended): an upload passing the extension check with a configured
key that fails at dataset load or at agent construction discards the
previous `Table`/`Agent` pair, but leaves the session holding a fresh
analyzer without an agent (not `None`); subsequent well-formed queries on
either endpoint — text queries with a non-empty stripped question, and
voice queries whose transcription result passes the sentinel check — are
rejected by `CSVAnalyzer.query` with
`{success: false, error: "Agent not initialized"}` rather than by the
`"No CSV file loaded. Please upload a CSV first."` guard. -/
theorem c1_failed_upload_leaves_agentless_session (s : WebAppState) (req : UploadRequest)
    (parseCsv : Bytes → Except PdError Table) (importsOk : Bool)
    (construct : Table → Except String Agent)
    (invoke : String → Except String AgentResponse) (tts : String → Except String Bytes)
    (h1 : req.hasFilePart = true) (h2 : pyStrTruthy req.filename = true)
    (h3 : pyLowerEndsWith req.filename ".csv" = true)
    (hk : pyTruthy s.api_key = true)
    (hfail : (upload_csv s req parseCsv importsOk construct).resp.success = false) :
    ∃ b, (upload_csv s req parseCsv importsOk construct).state.analyzer = some b ∧
      b.agent = none ∧
      (∀ qf : Option String, pyStrTruthy (pyStrip (qf.getD "")) = true →
        (text_query (upload_csv s req parseCsv importsOk construct).state qf
            invoke tts).resp =
          ⟨false, some (pyStrip (qf.getD "")), none, none,
            some "Agent not initialized"⟩) ∧
      (∀ (audioData : Bytes) (sttOutcome : Bytes → SttOutcome),
        pyStrTruthy (speech_to_text
          (clientConfigured (upload_csv s req parseCsv importsOk construct).state)
          (sttOutcome audioData)).text = true →
        pyStartsWith (speech_to_text
          (clientConfigured (upload_csv s req parseCsv importsOk construct).state)
          (sttOutcome audioData)).text "Error" = false →
        (voice_query (upload_csv s req parseCsv importsOk construct).state audioData
            sttOutcome invoke tts).resp =
          ⟨false, some (speech_to_text
            (clientConfigured (upload_csv s req parseCsv importsOk construct).state)
            (sttOutcome audioData)).text, none, none,
            some "Agent not initialized"⟩) := by
  cases hp : parseCsv req.content with
  | error e =>
    rw [upload_csv_parse_failed s req parseCsv importsOk construct e h1 h2 h3 hk hp]
    refine ⟨⟨s.api_key, none, none⟩, rfl, rfl, ?_, ?_⟩
    · intro qf hq
      exact text_query_agent_none _ ⟨s.api_key, none, none⟩ qf invoke tts rfl rfl hq
    · intro audioData sttOutcome ht hsp
      exact voice_query_agent_none _ ⟨s.api_key, none, none⟩ audioData sttOutcome invoke
        tts rfl rfl ht hsp
  | ok t =>
    cases hok : (create_agent ⟨s.api_key, some t, none⟩ importsOk construct).ok with
    | false =>
      rw [upload_csv_agent_failed s req parseCsv importsOk construct t h1 h2 h3 hk hp hok]
      refine ⟨⟨s.api_key, some t, none⟩, rfl, rfl, ?_, ?_⟩
      · intro qf hq
        exact text_query_agent_none _ ⟨s.api_key, some t, none⟩ qf invoke tts rfl rfl hq
      · intro audioData sttOutcome ht hsp
        exact voice_query_agent_none _ ⟨s.api_key, some t, none⟩ audioData sttOutcome
          invoke tts rfl rfl ht hsp
    | true =>
      cases importsOk with
      | false => simp [create_agent] at hok
      | true =>
        cases hc : construct t with
        | error e2 => simp [create_agent, hc] at hok
        | ok ag =>
          rw [upload_csv_success_eq s req parseCsv true construct t ag h1 h2 h3 hk hp rfl
            hc] at hfail
          simp at hfail

/-- Witness for the amended C1 at a concrete ready session whose re-upload
fails to parse. -/
theorem c1_failed_upload_leaves_agentless_session_witness :
    ((⟨true, "data.csv", [55]⟩ : UploadRequest).hasFilePart = true) ∧
    (pyStrTruthy (⟨true, "data.csv", [55]⟩ : UploadRequest).filename = true) ∧
    (pyLowerEndsWith (⟨true, "data.csv", [55]⟩ : UploadRequest).filename ".csv" = true) ∧
    (pyTruthy (⟨some "k",
      some ⟨some "k", some ⟨["a"], [["1"]]⟩, some ⟨⟨["a"], [["1"]]⟩⟩⟩⟩ :
        WebAppState).api_key = true) ∧
    ((upload_csv ⟨some "k", some ⟨some "k", some ⟨["a"], [["1"]]⟩, some ⟨⟨["a"], [["1"]]⟩⟩⟩⟩
        ⟨true, "data.csv", [55]⟩ (fun _ => Except.error (PdError.parserError "bad line"))
        true (fun t => Except.ok ⟨t⟩)).resp.success = false) ∧
    (∃ b, (upload_csv
        ⟨some "k", some ⟨some "k", some ⟨["a"], [["1"]]⟩, some ⟨⟨["a"], [["1"]]⟩⟩⟩⟩
        ⟨true, "data.csv", [55]⟩ (fun _ => Except.error (PdError.parserError "bad line"))
        true (fun t => Except.ok ⟨t⟩)).state.analyzer = some b ∧
      b.agent = none ∧
      (∀ qf : Option String, pyStrTruthy (pyStrip (qf.getD "")) = true →
        (text_query (upload_csv
            ⟨some "k", some ⟨some "k", some ⟨["a"], [["1"]]⟩, some ⟨⟨["a"], [["1"]]⟩⟩⟩⟩
            ⟨true, "data.csv", [55]⟩
            (fun _ => Except.error (PdError.parserError "bad line"))
            true (fun t => Except.ok ⟨t⟩)).state qf
            (fun _ => Except.ok (AgentResponse.nonDict "ans"))
            (fun _ => Except.ok [7])).resp =
          ⟨false, some (pyStrip (qf.getD "")), none, none,
            some "Agent not initialized"⟩) ∧
      (∀ (audioData : Bytes) (sttOutcome : Bytes → SttOutcome),
        pyStrTruthy (speech_to_text
          (clientConfigured (upload_csv
            ⟨some "k", some ⟨some "k", some ⟨["a"], [["1"]]⟩, some ⟨⟨["a"], [["1"]]⟩⟩⟩⟩
            ⟨true, "data.csv", [55]⟩
            (fun _ => Except.error (PdError.parserError "bad line"))
            true (fun t => Except.ok ⟨t⟩)).state)
          (sttOutcome audioData)).text = true →
        pyStartsWith (speech_to_text
          (clientConfigured (upload_csv
            ⟨some "k", some ⟨some "k", some ⟨["a"], [["1"]]⟩, some ⟨⟨["a"], [["1"]]⟩⟩⟩⟩
            ⟨true, "data.csv", [55]⟩
            (fun _ => Except.error (PdError.parserError "bad line"))
            true (fun t => Except.ok ⟨t⟩)).state)
          (sttOutcome audioData)).text "Error" = false →
        (voice_query (upload_csv
            ⟨some "k", some ⟨some "k", some ⟨["a"], [["1"]]⟩, some ⟨⟨["a"], [["1"]]⟩⟩⟩⟩
            ⟨true, "data.csv", [55]⟩
            (fun _ => Except.error (PdError.parserError "bad line"))
            true (fun t => Except.ok ⟨t⟩)).state audioData sttOutcome
            (fun _ => Except.ok (AgentResponse.nonDict "ans"))
            (fun _ => Except.ok [7])).resp =
          ⟨false, some (speech_to_text
            (clientConfigured (upload_csv
              ⟨some "k", some ⟨some "k", some ⟨["a"], [["1"]]⟩, some ⟨⟨["a"], [["1"]]⟩⟩⟩⟩
              ⟨true, "data.csv", [55]⟩
              (fun _ => Except.error (PdError.parserError "bad line"))
              true (fun t => Except.ok ⟨t⟩)).state)
            (sttOutcome audioData)).text, none, none,
            some "Agent not initialized"⟩)) :=
  ⟨rfl, by decide, by decide, by decide, by decide,
    c1_failed_upload_leaves_agentless_session
      ⟨some "k", some ⟨some "k", some ⟨["a"], [["1"]]⟩, some ⟨⟨["a"], [["1"]]⟩⟩⟩⟩
      ⟨true, "data.csv", [55]⟩ (fun _ => Except.error (PdError.parserError "bad line"))
      true (fun t => Except.ok ⟨t⟩)
      (fun _ => Except.ok (AgentResponse.nonDict "ans")) (fun _ => Except.ok [7])
      rfl (by decide) (by decide) (by decide) (by decide)⟩

/-- C3(counterexample): the claim says that with no API key configured a
valid `.csv` upload still succeeds.  Concretely: with the key absent, the
`CSVAnalyzer` constructor raises `ValueError("OPENAI_API_KEY not
provided")`, the handler's catch-all converts it, and the upload fails
even though the file parses. -/
theorem c3_upload_without_key_counterexample :
    (let up := upload_csv ⟨none, none⟩ ⟨true, "data.csv", [55]⟩
      (fun _ => Except.ok (⟨["a"], [["1"]]⟩ : Table)) true (fun t => Except.ok ⟨t⟩)
    up.resp.success = false ∧
    up.resp.error = some "OPENAI_API_KEY not provided" ∧
    up.resp.info = none ∧
    up.state.analyzer = none) := by
  decide

/-- C3(amended): when no API key is configured, uploading a valid `.csv`
file fails with `success:false` and error
`"OPENAI_API_KEY not provided"`, leaving the session unchanged: absence
of the credential disables file upload as well, not only the speech and
reasoning features. -/
theorem c3_upload_requires_key (s : WebAppState) (req : UploadRequest)
    (parseCsv : Bytes → Except PdError Table) (importsOk : Bool)
    (construct : Table → Except String Agent)
    (h1 : req.hasFilePart = true) (h2 : pyStrTruthy req.filename = true)
    (h3 : pyLowerEndsWith req.filename ".csv" = true)
    (hk : pyTruthy s.api_key = false) :
    upload_csv s req parseCsv importsOk construct =
      ⟨s, uploadFailure "OPENAI_API_KEY not provided"⟩ :=
  upload_csv_no_key s req parseCsv importsOk construct h1 h2 h3 hk

/-- Witness for the amended C3 at a concrete keyless session and a valid
parsing upload. -/
theorem c3_upload_requires_key_witness :
    ((⟨true, "data.csv", [55]⟩ : UploadRequest).hasFilePart = true) ∧
    (pyStrTruthy (⟨true, "data.csv", [55]⟩ : UploadRequest).filename = true) ∧
    (pyLowerEndsWith (⟨true, "data.csv", [55]⟩ : UploadRequest).filename ".csv" = true) ∧
    (pyTruthy (⟨none, none⟩ : WebAppState).api_key = false) ∧
    (upload_csv ⟨none, none⟩ ⟨true, "data.csv", [55]⟩
        (fun _ => Except.ok (⟨["a"], [["1"]]⟩ : Table)) true (fun t => Except.ok ⟨t⟩) =
      ⟨⟨none, none⟩, uploadFailure "OPENAI_API_KEY not provided"⟩) :=
  ⟨rfl, by decide, by decide, rfl,
    c3_upload_requires_key ⟨none, none⟩ ⟨true, "data.csv", [55]⟩
      (fun _ => Except.ok (⟨["a"], [["1"]]⟩ : Table)) true (fun t => Except.ok ⟨t⟩)
      rfl (by decide) (by decide) rfl⟩

end CsvApp
